import Mathlib

/-!
Verification of the peripage-printer repository's core against its
natural-language specification.

The embedding below is a shallow model of the Go source:

* `internal/core/service.go` — `PrintService.PrintText` (the only real
  orchestration logic); the `Printer` port is modelled as a state-passing
  function `sigma -> String -> Option String x sigma`, where the `Option String`
  is the Go `error` return (`none` = `nil`).
* `internal/core/service_test.go` — the test `mockPrinter` (records the last
  printed text, optionally returns a configured error).
* the BLE printer implementation (`BLEPrinter` with `Connect`,
  `performHandshake`, `PrintText`, `textToBitmap`, `sendBitmap`,
  `Disconnect`). Most of its protocol bodies are placeholders in the
  source: `textToBitmap` and `sendBitmap` unconditionally return
  "not yet implemented" errors, and `performHandshake` logs and returns
  `nil` without ever reading a device response. The embedding reproduces
  exactly that behaviour. I/O-only plumbing (the logger, the adapter
  handle, context timeouts) is not modelled; the advertisement stream seen
  by the scan callback and the result of `adapter.Connect` are passed in
  explicitly as parameters.

Go `error` values are modelled as `Option String` (`none` = `nil`,
`some s` = an error whose message is `s`); `fmt.Errorf("...: %w", err)`
becomes string concatenation of the prefix with the wrapped message.
-/

namespace PeriPage

/-- One BLE advertisement as seen by the scan callback
(`bluetooth.ScanResult`): local name, address, and signal strength (RSSI,
in dBm). The Go callback reads only `LocalName()` and `Address`; RSSI is
present on the real type but never consulted by the code. -/
structure ScanResult where
  localName : String
  address : String
  rssi : Int
deriving DecidableEq, Repr

/-- The connected BLE device (`bluetooth.Device`). The only behaviour of
the device the claims need is what its `Disconnect()` call returns, so the
device is modelled by that result (`none` = disconnect succeeds). -/
structure BLEDevice where
  disconnectErr : Option String
deriving DecidableEq, Repr

/-- Go struct `BLEPrinter` (BLE printer implementation): the target device
name, the scan timeout, and the currently connected device (`nil` pointer
= `none`). The `adapter` and `logger` fields are I/O handles and are not
part of the model. -/
structure BLEPrinter where
  device : Option BLEDevice
  deviceName : String
  scanTimeout : Nat
deriving DecidableEq, Repr

/-- The scan-callback selection logic inside `BLEPrinter.Connect`: the
callback fires once per advertisement in arrival order, and the first
result whose `LocalName()` equals `b.deviceName` is captured and the scan
stopped. Signal strength is never read. -/
def BLEPrinter.scanSelect (b : BLEPrinter) (ads : List ScanResult) : Option ScanResult :=
  ads.find? (fun r => r.localName == b.deviceName)

/-- Go `BLEPrinter.performHandshake`: a placeholder that logs and returns
`nil`. It never reads any bytes from the device, so its result is constant
in whatever the device would respond; the `response` parameter stands for
those (unread) device response bytes. -/
def BLEPrinter.performHandshake (_b : BLEPrinter) (_response : List Nat) : Option String :=
  none

/-- Go `BLEPrinter.Connect`: select the first advertisement matching the
device name (or fail with "device not found within timeout"), make a
single `adapter.Connect` call, store the device, and run the handshake.
`attemptConnect n` is the environment's answer to the n-th
`adapter.Connect` call; the second component of the result counts how many
such calls the code made. `response` is the device's (unread) handshake
response. -/
def BLEPrinter.Connect (b : BLEPrinter) (ads : List ScanResult)
    (attemptConnect : Nat → Except String BLEDevice) (response : List Nat) :
    Except String BLEPrinter × Nat :=
  match b.scanSelect ads with
  | none => (.error "device not found within timeout", 0)
  | some _found =>
    match attemptConnect 0 with
    | .error e => (.error ("failed to connect to device: " ++ e), 1)
    | .ok dev =>
      let b2 : BLEPrinter := { b with device := some dev }
      match b2.performHandshake response with
      | some e => (.error ("handshake failed: " ++ e), 1)
      | none => (.ok b2, 1)

/-- Go `BLEPrinter.textToBitmap`: a placeholder that returns the pair
`([]byte{}, error)` with the error "bitmap rendering not yet implemented",
for every input text. Bytes are modelled as `Nat`s. -/
def BLEPrinter.textToBitmap (_b : BLEPrinter) (_text : String) :
    List Nat × Option String :=
  ([], some "bitmap rendering not yet implemented")

/-- Go `BLEPrinter.sendBitmap`: a placeholder that returns the error
"bitmap sending not yet implemented" without writing anything to the BLE
characteristic. The second component is the list of frames actually
written to the device (the placeholder writes none). -/
def BLEPrinter.sendBitmap (_b : BLEPrinter) (_bitmap : List Nat) :
    Option String × List (List Nat) :=
  (some "bitmap sending not yet implemented", [])

/-- Go `BLEPrinter.PrintText`: guard on a nil device, then
`textToBitmap` and `sendBitmap`, wrapping each error with its context
prefix. The receiver is never mutated on any path of the source, so the
result is just the returned error. -/
def BLEPrinter.PrintText (b : BLEPrinter) (text : String) : Option String :=
  match b.device with
  | none => some "not connected to printer"
  | some _ =>
    match b.textToBitmap text with
    | (_, some e) => some ("failed to convert text to bitmap: " ++ e)
    | (bitmap, none) =>
      match b.sendBitmap bitmap with
      | (some e, _) => some ("failed to send bitmap: " ++ e)
      | (none, _) => none

/-- Go `BLEPrinter.Disconnect`: `nil` device returns `nil` immediately;
otherwise call the device's `Disconnect()`, propagate its error (leaving
the device reference in place), and on success clear the device reference
and return `nil`. -/
def BLEPrinter.Disconnect (b : BLEPrinter) : Option String × BLEPrinter :=
  match b.device with
  | none => (none, b)
  | some dev =>
    match dev.disconnectErr with
    | some e => (some ("failed to disconnect: " ++ e), b)
    | none => (none, { b with device := none })

/-- Go `PrintService.PrintText` (service.go): reject the empty string with
"text cannot be empty", otherwise delegate to the injected printer. The
printer port is a state-passing function so that the claims can speak
about whether and how the printer was invoked. -/
def PrintService.PrintText {σ : Type} (printer : σ → String → Option String × σ)
    (s : σ) (text : String) : Option String × σ :=
  if text = "" then (some "text cannot be empty", s)
  else printer s text

/-- The test double `mockPrinter` from service_test.go: records the last
text printed, or returns the configured error without recording. -/
structure mockPrinter where
  lastText : String
  err : Option String
deriving DecidableEq, Repr

/-- Go `mockPrinter.PrintText` from service_test.go. -/
def mockPrinter.PrintText (m : mockPrinter) (text : String) :
    Option String × mockPrinter :=
  match m.err with
  | some e => (some e, m)
  | none => (none, { m with lastText := text })

/-- A disconnected BLE printer with the default device name. -/
def bleDisconnected : BLEPrinter :=
  { device := none, deviceName := "Peripage", scanTimeout := 10 }

/-- A successfully disconnecting device. -/
def devOk : BLEDevice := { disconnectErr := none }

/-- A BLE printer with a device connected. -/
def bleConnected : BLEPrinter :=
  { device := some devOk, deviceName := "Peripage", scanTimeout := 10 }

/-- C1: the spec claims that for every text input the rendering operation
(`textToBitmap`) succeeds and returns at least one bitmap of byte length
`rows × (printWidthPx/8)` with `rows ≥ 1`. The code contradicts this: for
every printer and every input text — in particular the empty string —
`textToBitmap` returns an empty byte slice together with the error
"bitmap rendering not yet implemented", i.e. zero rows and a failure. -/
theorem BLEPrinter.textToBitmap_always_fails (b : BLEPrinter) (text : String) :
    b.textToBitmap text = ([], some "bitmap rendering not yet implemented") ∧
    (b.textToBitmap text).1.length = 0 :=
  ⟨rfl, rfl⟩

/-- C2: the spec claims that sending a 2000-byte image with
`maxPacketSize = 512` splits it into exactly 4 frames written in strictly
increasing sequence order. The code contradicts this: `sendBitmap` on a
2000-byte bitmap writes zero frames to the device and returns the error
"bitmap sending not yet implemented". -/
theorem BLEPrinter.sendBitmap_writes_no_frames :
    bleConnected.sendBitmap (List.replicate 2000 0)
      = (some "bitmap sending not yet implemented", []) ∧
    (bleConnected.sendBitmap (List.replicate 2000 0)).2.length = 0 :=
  ⟨rfl, rfl⟩

/-- C6: the spec claims any device response outside the profile's expected
"ready" pattern aborts the handshake with an `UnexpectedResponse` error
carrying the raw bytes, and that the handshake never succeeds in the
presence of an unexpected response. The code contradicts this: for every
printer and every device response — including the byte 0xFF, which matches
no "ready" pattern — `performHandshake` returns success (`nil`) without
inspecting the response at all. -/
theorem BLEPrinter.performHandshake_ignores_response (b : BLEPrinter) (response : List Nat) :
    b.performHandshake response = none :=
  rfl

/-- C3 counterexample: `PrintText` on a printer with no connected device.
The claim says it first attempts the full Discover-Connect-Handshake chain
and returns the causal error of the failing stage; instead the code
returns the guard error "not connected to printer" immediately — a message
produced by no stage of that chain (discovery failure would say "device
not found within timeout", connection failure "failed to connect to
device: ...", handshake failure "handshake failed: ..."). -/
theorem BLEPrinter.PrintText_disconnected_counterexample :
    bleDisconnected.PrintText "hello" = some "not connected to printer" ∧
    "not connected to printer" ≠ "device not found within timeout" :=
  ⟨rfl, by decide⟩

/-- C3 amended: if `PrintText` is called while no device is connected, it
fails immediately with the "not connected to printer" error; it never
attempts discovery, connection, or handshake (the session is connected
only by an explicit `Connect` call, as done at startup in main.go). -/
theorem BLEPrinter.PrintText_requires_connection (b : BLEPrinter) (text : String)
    (h : b.device = none) :
    b.PrintText text = some "not connected to printer" := by
  simp [BLEPrinter.PrintText, h]

/-- C3 witness: the amended theorem at the concrete disconnected printer. -/
theorem BLEPrinter.PrintText_requires_connection_witness :
    bleDisconnected.PrintText "hello" = some "not connected to printer" :=
  BLEPrinter.PrintText_requires_connection bleDisconnected "hello" rfl

/-- C7 counterexample: the claim says a `PrintText` call made while
another print is in flight fails immediately with a `Busy` error. The
`BLEPrinter` state carries no printing/busy flag and no lock, so the
session state while a print is in flight is simply "device connected";
a `PrintText` call in that state proceeds into the ordinary print path and
returns the bitmap-rendering error — not any form of busy rejection
(no busy error exists anywhere in the code). -/
theorem BLEPrinter.PrintText_no_busy_counterexample :
    bleConnected.PrintText "second print"
      = some "failed to convert text to bitmap: bitmap rendering not yet implemented" :=
  rfl

/-- C7 amended: a `PrintText` call arriving while another print is in
flight is not rejected with `Busy`; the code tracks no busy state, so for
every printer with a connected device — the only state visible while a
print is in flight — `PrintText` runs the same print path as a first call
(currently failing with the bitmap-rendering placeholder error). -/
theorem BLEPrinter.PrintText_connected_runs_print_path (b : BLEPrinter) (text : String)
    (dev : BLEDevice) (h : b.device = some dev) :
    b.PrintText text
      = some "failed to convert text to bitmap: bitmap rendering not yet implemented" := by
  simp [BLEPrinter.PrintText, h, BLEPrinter.textToBitmap]

/-- C7 witness: the amended theorem at the concrete connected printer. -/
theorem BLEPrinter.PrintText_connected_runs_print_path_witness :
    bleConnected.PrintText "x"
      = some "failed to convert text to bitmap: bitmap rendering not yet implemented" :=
  BLEPrinter.PrintText_connected_runs_print_path bleConnected "x" devOk rfl

/-- A weak-signal advertisement matching the target name. -/
def adWeak : ScanResult := { localName := "Peripage", address := "AA:00", rssi := -90 }

/-- A strong-signal advertisement matching the target name, arriving after
the weak one. -/
def adStrong : ScanResult := { localName := "Peripage", address := "BB:11", rssi := -40 }

/-- C4 counterexample: with two advertisements both matching the name
filter, the first arrival (signal -90 dBm) is selected even though a
strictly stronger match (-40 dBm) follows — the claim that the handle with
the strongest signal strength wins is false. -/
theorem BLEPrinter.scanSelect_ignores_rssi_counterexample :
    bleDisconnected.scanSelect [adWeak, adStrong] = some adWeak ∧
    adWeak.rssi < adStrong.rssi :=
  ⟨rfl, by decide⟩

/-- C4 amended: the scan-callback selection returns the first
advertisement (in arrival order) whose local name equals the configured
device name, and stops there; signal strength is never consulted. Every
advertisement before the selected one fails the name match. -/
theorem BLEPrinter.scanSelect_first_match (b : BLEPrinter) (ads : List ScanResult)
    (r : ScanResult) (h : b.scanSelect ads = some r) :
    r.localName = b.deviceName ∧
    ∃ pre post, ads = pre ++ r :: post ∧ ∀ x ∈ pre, x.localName ≠ b.deviceName := by
  induction ads with
  | nil => simp [BLEPrinter.scanSelect] at h
  | cons a t ih =>
    rw [BLEPrinter.scanSelect] at h
    by_cases hb : a.localName = b.deviceName
    · rw [List.find?_cons_of_pos _ (by simpa using hb)] at h
      obtain rfl : a = r := by injection h
      exact ⟨hb, [], t, rfl, by simp⟩
    · rw [List.find?_cons_of_neg _ (by simpa using hb)] at h
      obtain ⟨hr, pre, post, heq, hpre⟩ := ih h
      refine ⟨hr, a :: pre, post, by simp [heq], ?_⟩
      intro x hx
      rcases List.mem_cons.mp hx with rfl | hx
      · exact hb
      · exact hpre x hx

/-- C4 witness: the first-match theorem at the concrete two-advertisement
scan, discharging the selection hypothesis by computation. -/
theorem BLEPrinter.scanSelect_first_match_witness :
    adWeak.localName = bleDisconnected.deviceName ∧
    ∃ pre post, [adWeak, adStrong] = pre ++ adWeak :: post ∧
      ∀ x ∈ pre, x.localName ≠ bleDisconnected.deviceName :=
  BLEPrinter.scanSelect_first_match bleDisconnected [adWeak, adStrong] adWeak rfl

/-- A connection environment that refuses the first attempt and would
accept any later one — distinguishing single-attempt behaviour from any
retrying behaviour. -/
def refuseFirstAttempt : Nat → Except String BLEDevice :=
  fun n => if n = 0 then .error "connection refused" else .ok devOk

/-- C5 counterexample: against an environment whose first connection
attempt fails and whose second would succeed, `Connect` returns the
failure after exactly one `adapter.Connect` call — the claimed internal
retry (which would have reached the succeeding second attempt) does not
exist. -/
theorem BLEPrinter.Connect_no_retry_counterexample :
    bleDisconnected.Connect [adWeak] refuseFirstAttempt []
      = (.error "failed to connect to device: connection refused", 1) ∧
    refuseFirstAttempt 1 = .ok devOk :=
  ⟨rfl, rfl⟩

/-- C5 amended: `Connect` makes exactly one connection attempt — no
internal retry and no backoff. When an advertisement matches and that
single `adapter.Connect` call fails, the failure is reported to the caller
(wrapped with its context prefix), never silently swallowed. -/
theorem BLEPrinter.Connect_single_attempt (b : BLEPrinter) (ads : List ScanResult)
    (attemptConnect : Nat → Except String BLEDevice) (response : List Nat)
    (r : ScanResult) (e : String)
    (hfound : b.scanSelect ads = some r) (hfail : attemptConnect 0 = .error e) :
    b.Connect ads attemptConnect response
      = (.error ("failed to connect to device: " ++ e), 1) := by
  simp [BLEPrinter.Connect, hfound, hfail]

/-- C5 witness: the single-attempt theorem at the concrete refusing
environment. -/
theorem BLEPrinter.Connect_single_attempt_witness :
    bleDisconnected.Connect [adWeak] refuseFirstAttempt []
      = (.error ("failed to connect to device: " ++ "connection refused"), 1) :=
  BLEPrinter.Connect_single_attempt bleDisconnected [adWeak] refuseFirstAttempt []
    adWeak "connection refused" rfl rfl

/-- C8: for every printer implementation, printer state, and non-empty
text, `PrintService.PrintText` returns exactly what the underlying
printer's call returns — error value and resulting printer state
unchanged. In particular it returns `nil` exactly when the printer does,
and otherwise the printer's error with its identity (hence kind)
preserved: no failure is swallowed. -/
theorem PrintService.PrintText_propagates {σ : Type}
    (printer : σ → String → Option String × σ) (s : σ) (text : String)
    (h : text ≠ "") :
    PrintService.PrintText printer s text = printer s text := by
  simp [PrintService.PrintText, h]

/-- C8 witness: propagation at a concrete failing printer — the "printer
offline" error reaches the caller untouched. -/
theorem PrintService.PrintText_propagates_witness :
    PrintService.PrintText (fun (n : Nat) _ => (some "printer offline", n)) 0 "Test text"
      = (some "printer offline", 0) :=
  PrintService.PrintText_propagates (fun (n : Nat) _ => (some "printer offline", n))
    0 "Test text" (by decide)

/-- C9: `PrintService.PrintText` on the empty string returns the
"text cannot be empty" error with the printer state untouched, and its
behaviour there is independent of which printer is injected (so the
printer is never invoked); for every non-empty text, running the service
over the recording `mockPrinter` shows the printer receives exactly the
given text. -/
theorem PrintService.PrintText_empty_guard {σ : Type}
    (p q : σ → String → Option String × σ) (s : σ)
    (m : mockPrinter) (text : String) (hne : text ≠ "") (herr : m.err = none) :
    PrintService.PrintText p s "" = (some "text cannot be empty", s) ∧
    PrintService.PrintText p s "" = PrintService.PrintText q s "" ∧
    (PrintService.PrintText mockPrinter.PrintText m text).2.lastText = text := by
  refine ⟨rfl, rfl, ?_⟩
  simp [PrintService.PrintText, hne, mockPrinter.PrintText, herr]

/-- C9 witness: the empty-guard theorem at a concrete printer and the
text "hi". -/
theorem PrintService.PrintText_empty_guard_witness :
    PrintService.PrintText (fun (n : Nat) _ => (none, n)) 0 ""
      = (some "text cannot be empty", 0) ∧
    PrintService.PrintText (fun (n : Nat) _ => (none, n)) 0 ""
      = PrintService.PrintText (fun (n : Nat) _ => (some "boom", n + 1)) 0 "" ∧
    (PrintService.PrintText mockPrinter.PrintText ⟨"", none⟩ "hi").2.lastText = "hi" :=
  PrintService.PrintText_empty_guard (fun (n : Nat) _ => (none, n))
    (fun (n : Nat) _ => (some "boom", n + 1)) 0 ⟨"", none⟩ "hi" (by decide) rfl

/-- C10: `Disconnect` is idempotent. With no device connected it returns
`nil` and leaves the printer unchanged; and whenever the connected
device's `Disconnect()` succeeds, the call returns `nil`, clears the
device reference, and a second consecutive `Disconnect` on the resulting
printer again returns `nil` leaving it unchanged. -/
theorem BLEPrinter.Disconnect_idempotent (b : BLEPrinter) :
    (b.device = none → b.Disconnect = (none, b)) ∧
    (∀ dev, b.device = some dev → dev.disconnectErr = none →
      b.Disconnect = (none, { b with device := none }) ∧
      b.Disconnect.2.Disconnect = (none, b.Disconnect.2)) := by
  constructor
  · intro h
    simp [BLEPrinter.Disconnect, h]
  · intro dev h hd
    have h1 : b.Disconnect = (none, { b with device := none }) := by
      simp [BLEPrinter.Disconnect, h, hd]
    refine ⟨h1, ?_⟩
    rw [h1]
    simp [BLEPrinter.Disconnect]

/-- C10 witness: idempotence at the concrete printers — the disconnected
one is untouched, and the connected one returns `nil` twice in a row. -/
theorem BLEPrinter.Disconnect_idempotent_witness :
    bleDisconnected.Disconnect = (none, bleDisconnected) ∧
    bleConnected.Disconnect.2.Disconnect = (none, bleConnected.Disconnect.2) :=
  ⟨(BLEPrinter.Disconnect_idempotent bleDisconnected).1 rfl,
   ((BLEPrinter.Disconnect_idempotent bleConnected).2 devOk rfl rfl).2⟩

end PeriPage
